import Mathlib

/-!
Verification development for the Mealplanner dish-selection engine.

Shallow embedding of the Python sources:
  - `src/backend/src/calorie_splitter.py` (split_calories)
  - `src/backend/src/api.py` (BMR / activity factor / caloric target pipeline)
  - `src/backend/src/dish_filter.py` (DishFilter: constraint filtering, scoring,
    dish selection)

Numbers are modelled with exact rationals; Python round() is modelled by
`pyRound` (round half to even, the Python semantics on exact values) and
Python int() truncation by `pyTrunc`.
-/

/-- Python round(): round half to even, on exact rationals. -/
def pyRound (q : ℚ) : ℤ :=
  if q - ⌊q⌋ < 1/2 then ⌊q⌋
  else if 1/2 < q - ⌊q⌋ then ⌊q⌋ + 1
  else if ⌊q⌋ % 2 = 0 then ⌊q⌋ else ⌊q⌋ + 1

/-- Python int(): truncation toward zero. -/
def pyTrunc (q : ℚ) : ℤ :=
  if 0 ≤ q then ⌊q⌋ else -⌊-q⌋

/-- ASCII lowercase of one character (str.lower(); the tags in this code base
are ASCII). -/
def pyCharLower (c : Char) : Char :=
  if 65 ≤ c.toNat ∧ c.toNat ≤ 90 then Char.ofNat (c.toNat + 32) else c

/-- Python str.lower(), character by character. -/
def pyLower (s : String) : String := String.mk (s.data.map pyCharLower)

/-- Python whitespace test for str.strip(): space, tab, LF, CR, VT, FF. -/
def isPySpace (c : Char) : Bool :=
  c.toNat = 32 || c.toNat = 9 || c.toNat = 10 || c.toNat = 13 ||
    c.toNat = 11 || c.toNat = 12

/-- Python str.strip(): drop leading and trailing whitespace. -/
def pyStrip (s : String) : String :=
  String.mk (((s.data.dropWhile isPySpace).reverse.dropWhile isPySpace).reverse)

/-- Python single-character str.replace(old, new), used for
.replace(" ", "_") and .replace("_", " ") in dish_filter.py. -/
def pyReplaceChar (s : String) (a b : Char) : String :=
  String.mk (s.data.map (fun c => if c = a then b else c))

/-- Whether the second char list is a leading segment of the first argument
order: charsHasStart needle hay. -/
def charsHasStart : List Char → List Char → Bool
  | [], _ => true
  | _ :: _, [] => false
  | a :: as, b :: bs => a == b && charsHasStart as bs

/-- Whether needle occurs contiguously inside the second list. -/
def charsContains (needle : List Char) : List Char → Bool
  | [] => needle.isEmpty
  | c :: t => charsHasStart needle (c :: t) || charsContains needle t

/-- Python substring test: needle in hay. -/
def pyContains (hay needle : String) : Bool := charsContains needle.data hay.data

/-- Result dictionary of split_calories: breakfast/lunch/dinner always present,
snack entries only for the "3 meals + 2 snacks" cadence. -/
structure CalorieDistribution where
  breakfast : ℤ
  lunch : ℤ
  dinner : ℤ
  snack_1 : Option ℤ
  snack_2 : Option ℤ
  deriving DecidableEq

/-- Embedding of calorie_splitter.split_calories.  The isinstance/positivity
check and the cadence check happen first and raise ValueError (modelled as
Except.error), before any allocation is computed.  Percentages: breakfast
0.275 = 11/40, lunch 0.325 = 13/40, dinner 0.275; each slot is rounded to
the nearest 10 kcal; for the snack cadence the residual is halved and
rounded to the nearest 10 kcal, and both snack slots get that same value. -/
def split_calories (total_calories : ℚ) (meal_frequency : String) :
    Except String CalorieDistribution :=
  if total_calories ≤ 0 then
    Except.error "Total calories must be a positive number"
  else if ¬ (meal_frequency = "3 meals" ∨ meal_frequency = "3 meals + 2 snacks") then
    Except.error "Meal frequency must be either 3 meals or 3 meals + 2 snacks"
  else
    let breakfast_cal : ℤ := pyRound (total_calories * (11/40) / 10) * 10
    let lunch_cal : ℤ := pyRound (total_calories * (13/40) / 10) * 10
    let dinner_cal : ℤ := pyRound (total_calories * (11/40) / 10) * 10
    if meal_frequency = "3 meals + 2 snacks" then
      let remaining_cal : ℚ :=
        total_calories - ((breakfast_cal + lunch_cal + dinner_cal : ℤ) : ℚ)
      let snack_cal : ℤ := pyRound (remaining_cal / 2 / 10) * 10
      Except.ok
        { breakfast := breakfast_cal, lunch := lunch_cal, dinner := dinner_cal,
          snack_1 := some snack_cal, snack_2 := some snack_cal }
    else
      Except.ok
        { breakfast := breakfast_cal, lunch := lunch_cal, dinner := dinner_cal,
          snack_1 := none, snack_2 := none }

/-- Embedding of AIEnhancedMealPlannerService.calculate_bmr (api.py):
Mifflin-St Jeor, +5 only on the exact string "Male". -/
def calculate_bmr (weight_kg height_cm age : ℚ) (gender : String) : ℚ :=
  let base_calc := 10 * weight_kg + (25/4) * height_cm - 5 * age
  if gender = "Male" then base_calc + 5 else base_calc - 161

/-- Assoc-list lookup, modelling Python dict[key] / dict.get(key). -/
def alookup {α : Type} : List (String × α) → String → Option α
  | [], _ => none
  | p :: rest, k => if p.1 = k then some p.2 else alookup rest k

/-- Embedding of get_activity_factor (api.py): table lookup on the lowercased
lifestyle, default 1.2. -/
def get_activity_factor (lifestyle_type : String) : ℚ :=
  (alookup [("sedentary", 6/5), ("active", 31/20), ("elderly", 6/5),
            ("athletic", 69/40)] (pyLower lifestyle_type)).getD (6/5)

/-- Goal adjustment table from the generate_meal_plan endpoint (api.py),
default 1.0 for unlisted goals. -/
def goal_adjustment (primary_goal : String) : ℚ :=
  (alookup [("Weight Loss", 17/20), ("Muscle Gain", 23/20),
            ("Maintenance", 1), ("Recovery", 11/10)] primary_goal).getD 1

/-- The caloric-target pipeline of the generate_meal_plan endpoint (api.py):
caloric_intake = round(bmr * activity_factor); adjusted_calories =
int(caloric_intake * goal_adjustment). -/
def computed_caloric_target (weight_kg height_cm age : ℚ)
    (gender lifestyle_type primary_goal : String) : ℤ :=
  let bmr := calculate_bmr weight_kg height_cm age gender
  let activity_factor := get_activity_factor lifestyle_type
  let caloric_intake := pyRound (bmr * activity_factor)
  pyTrunc ((caloric_intake : ℚ) * goal_adjustment primary_goal)

/-- Catalog dish record (dish_filter.py).  Numeric fields are exact rationals;
tag collections are lists of strings; attribute_rankings is the nested
category-to-value-to-score mapping, modelled as association lists. -/
structure Dish where
  name : String
  meal_type : String
  calories : ℚ
  protein_grams : ℚ
  diet_tags : List String
  allergy_risks : List String
  region : String
  attribute_rankings : List (String × List (String × ℚ))
  time_of_day_suitability : List String
  persona_tags : List String
  deriving DecidableEq

/-- User profile dictionary as consumed by DishFilter.  Optional string
fields model dict.get semantics: none is an absent key, some "" an empty
(falsy) value.  region is the "Region" key (default ""). -/
structure UserData where
  primary_goal : Option String
  lifestyle_type : Option String
  dietary_strictness : Option String
  flavor_preferences : Option String
  prep_skill_level : Option String
  affordability_preference : Option String
  known_allergies : List String
  preferred_meal_times : List String
  persona_tags : List String
  region : String
  weight_kg : ℚ
  deriving DecidableEq

/-- DishFilter.meal_type_mapping. -/
def meal_type_mapping : List (String × String) :=
  [("morning", "breakfast"), ("afternoon", "lunch"), ("evening", "dinner"),
   ("night", "dinner"), ("snacks", "snack")]

/-- DishFilter.protein_requirements (grams per kg body weight by goal). -/
def protein_requirements : List (String × ℚ) :=
  [("muscle gain", 11/5), ("weight loss", 8/5), ("recovery", 9/5),
   ("cardiac", 6/5), ("diabetes", 6/5), ("maintenance", 1),
   ("medical therapy", 7/5)]

/-- DishFilter.calculate_user_protein_needs: goal is lowercased, spaces to
underscores, then underscores back to spaces; requirement looked up with
default 1.0, times weight, times the activity multiplier (default 1.0). -/
def calculate_user_protein_needs (user : UserData) : ℚ :=
  let weight := user.weight_kg
  let goal := pyReplaceChar (pyLower (user.primary_goal.getD "maintenance"))
    (Char.ofNat 32) (Char.ofNat 95)
  let lifestyle := pyLower (user.lifestyle_type.getD "sedentary")
  let goal := pyReplaceChar goal (Char.ofNat 95) (Char.ofNat 32)
  let base_protein := (alookup protein_requirements goal).getD 1 * weight
  let activity_multipliers : List (String × ℚ) :=
    [("athletic", 6/5), ("active", 11/10), ("sedentary", 1), ("elderly", 9/10)]
  let multiplier := (alookup activity_multipliers lifestyle).getD 1
  base_protein * multiplier

/-- DishFilter._normalize_health_goal. -/
def normalize_health_goal (goal : String) : String :=
  (alookup [("weight_loss", "weight loss"), ("muscle_gain", "muscle gain"),
            ("medical_therapy", "medical recovery"), ("cardiac", "cardiac"),
            ("diabetes", "diabetes"), ("maintenance", "maintenance"),
            ("recovery", "recovery")] goal).getD
    (pyReplaceChar goal (Char.ofNat 95) (Char.ofNat 32))

/-- One entry of normalize_user_preferences: present and non-empty (truthy)
values are lowercased with spaces replaced by underscores; the primary goal
additionally goes through normalize_health_goal. -/
def pref_entry (dish_key : String) (v : Option String) (is_goal : Bool) :
    List (String × String) :=
  match v with
  | none => []
  | some s =>
    if s = "" then []
    else
      let value := pyReplaceChar (pyLower s) (Char.ofNat 32) (Char.ofNat 95)
      let value := if is_goal then normalize_health_goal value else value
      [(dish_key, value)]

/-- DishFilter.normalize_user_preferences, in the field_mapping order of the
source. -/
def normalize_user_preferences (user : UserData) : List (String × String) :=
  pref_entry "health_suitability" user.primary_goal true ++
  pref_entry "lifestyle_suitability" user.lifestyle_type false ++
  pref_entry "dietary_suitability" user.dietary_strictness false ++
  pref_entry "flavor_profile" user.flavor_preferences false ++
  pref_entry "prep_complexity" user.prep_skill_level false ++
  pref_entry "ingredient_affordability" user.affordability_preference false

/-- Factor 1 of calculate_comprehensive_score: sum of the dish ranking-table
entries found for the normalized preferences. -/
def attribute_rankings_score (dish : Dish) (user : UserData) : ℚ :=
  (normalize_user_preferences user).foldl (fun acc kv =>
    match alookup dish.attribute_rankings kv.1 with
    | some tbl =>
      match alookup tbl kv.2 with
      | some v => acc + v
      | none => acc
    | none => acc) 0

/-- DishFilter._calculate_protein_score: banded score on the
dish-protein-to-target quotient, tightest band first. -/
def calculate_protein_score (dish_protein target_protein : ℚ) : ℚ :=
  if target_protein = 0 then 0
  else
    if 4/5 ≤ dish_protein / target_protein ∧ dish_protein / target_protein ≤ 6/5 then 3
    else if 3/5 ≤ dish_protein / target_protein ∧ dish_protein / target_protein ≤ 7/5 then 2
    else if 2/5 ≤ dish_protein / target_protein ∧ dish_protein / target_protein ≤ 8/5 then 1
    else -1

/-- DishFilter._calculate_caloric_score: density bucket from the calories of the dish
itself, looked up in its caloric_density ranking table (default 0). -/
def calculate_caloric_score (dish : Dish) (caloric_rankings : List (String × ℚ)) : ℚ :=
  let density :=
    if dish.calories < 200 then "low"
    else if dish.calories > 500 then "high"
    else "moderate"
  (alookup caloric_rankings density).getD 0

/-- DishFilter._calculate_dietary_compatibility: +3 on a verbatim diet-tag
match, -5 on a conflict from the fixed table. -/
def calculate_dietary_compatibility (dish : Dish) (user : UserData) : ℚ :=
  let dish_diet_tags := dish.diet_tags.map pyLower
  let user_dietary := pyLower (user.dietary_strictness.getD "")
  let direct : ℚ := if dish_diet_tags.contains user_dietary then 3 else 0
  let dietary_conflicts : List (String × List String) :=
    [("vegan", ["non-vegetarian", "dairy"]), ("vegetarian", ["non-vegetarian"]),
     ("diabetic-friendly", ["high-sugar", "sweet"]), ("gluten-free", ["gluten"])]
  let conflict : ℚ :=
    match alookup dietary_conflicts user_dietary with
    | some conflicts =>
      if conflicts.any (fun c => dish_diet_tags.contains c) then -5 else 0
    | none => 0
  direct + conflict

/-- The allergy set of the user: entries that are non-empty after stripping,
stripped and lowercased, deduplicated (a Python set). -/
def user_allergy_set (user : UserData) : List String :=
  ((user.known_allergies.filter (fun a => pyStrip a ≠ "")).map
    (fun a => pyLower (pyStrip a))).dedup

/-- The allergen set of the dish: allergy_risks lowercased, deduplicated. -/
def dish_allergen_set (dish : Dish) : List String :=
  (dish.allergy_risks.map pyLower).dedup

/-- The intersection of the user allergy set and the dish allergen set, as
computed by both _calculate_allergy_risk and _has_allergy_conflict. -/
def allergy_conflicts (dish : Dish) (user : UserData) : List String :=
  (user_allergy_set user).filter (fun a => (dish_allergen_set dish).contains a)

/-- DishFilter._calculate_allergy_risk: minus the number of conflicts, 0 if
none. -/
def calculate_allergy_risk (dish : Dish) (user : UserData) : ℚ :=
  if allergy_conflicts dish user = [] then 0
  else -((allergy_conflicts dish user).length : ℚ)

/-- DishFilter._has_allergy_conflict: true when the intersection is
non-empty. -/
def has_allergy_conflict (dish : Dish) (user : UserData) : Bool :=
  !(allergy_conflicts dish user).isEmpty

/-- DishFilter._calculate_meal_timing_score: for each preferred time whose
lowercase is a key of meal_type_mapping, collect the dish suitability tags
that contain the lowercased user tag as a substring; half the number of
distinct collected tags. -/
def calculate_meal_timing_score (dish : Dish) (user : UserData) : ℚ :=
  if user.preferred_meal_times = [] ∨ dish.time_of_day_suitability = [] then 0
  else
    (((user.preferred_meal_times.flatMap (fun time =>
      if (meal_type_mapping.map (fun p => p.1)).contains (pyLower time) then
        dish.time_of_day_suitability.filter
          (fun t => pyContains (pyLower t) (pyLower time))
      else [])).dedup.length : ℚ)) * (1/2)

/-- DishFilter._calculate_persona_match: half the size of the intersection of
the raw persona tag sets, 0 if either is empty. -/
def calculate_persona_match (dish : Dish) (user : UserData) : ℚ :=
  if user.persona_tags = [] ∨ dish.persona_tags = [] then 0
  else
    ((user.persona_tags.dedup.filter
      (fun t => dish.persona_tags.contains t)).length : ℚ) * (1/2)

/-- Protein term of the total score: guarded by Python truthiness of
target_protein (None and 0 both skip), then weight 1.5. -/
def protein_contribution (dish : Dish) (target_protein : Option ℚ) : ℚ :=
  match target_protein with
  | none => 0
  | some p => if p = 0 then 0 else calculate_protein_score dish.protein_grams p * (3/2)

/-- Caloric term of the total score: guarded by truthiness of target_calories
and presence of a caloric_density ranking table, then weight 0.3. -/
def caloric_contribution (dish : Dish) (target_calories : Option ℚ) : ℚ :=
  match target_calories with
  | none => 0
  | some c =>
    if c = 0 then 0
    else
      match alookup dish.attribute_rankings "caloric_density" with
      | some tbl => calculate_caloric_score dish tbl * (3/10)
      | none => 0

/-- Allergy term of the total score: the risk times the magnitude of the
allergy_penalty weight (abs (-10) = 10). -/
def allergy_contribution (dish : Dish) (user : UserData) : ℚ :=
  calculate_allergy_risk dish user * |(-10 : ℚ)|

/-- Meal-timing term of the total score: the timing score times weight 0.5. -/
def timing_contribution (dish : Dish) (user : UserData) : ℚ :=
  calculate_meal_timing_score dish user * (1/2)

/-- DishFilter.calculate_comprehensive_score: weighted sum of the seven
factors, weights 1.0 / 0.3 / 1.5 / 2.0 / 10.0 (as penalty magnitude) /
0.5 / 0.8 in source order. -/
def calculate_comprehensive_score (dish : Dish) (user : UserData)
    (target_calories : Option ℚ) (target_protein : Option ℚ) : ℚ :=
  attribute_rankings_score dish user * 1
  + caloric_contribution dish target_calories
  + protein_contribution dish target_protein
  + calculate_dietary_compatibility dish user * 2
  + allergy_contribution dish user
  + timing_contribution dish user
  + calculate_persona_match dish user * (4/5)

/-- DishFilter._has_dietary_conflict: closed table, vegan and vegetarian
forbid the non-vegetarian tag. -/
def has_dietary_conflict (dish : Dish) (user : UserData) : Bool :=
  let user_dietary := pyLower (user.dietary_strictness.getD "")
  let dish_diet_tags := dish.diet_tags.map pyLower
  match alookup [("vegan", "non-vegetarian"), ("vegetarian", "non-vegetarian")]
      user_dietary with
  | some forbidden => dish_diet_tags.contains forbidden
  | none => false

/-- Region check of filter_dishes_by_constraints: a non-empty user Region
excludes dishes whose lowercased region differs. -/
def region_mismatch (dish : Dish) (user : UserData) : Bool :=
  let user_region := pyLower user.region
  user_region != "" && pyLower dish.region != user_region

/-- DishFilter.filter_dishes_by_constraints: keep dishes passing the allergy,
dietary and region checks, preserving order. -/
def filter_dishes_by_constraints (dishes : List Dish) (user : UserData) : List Dish :=
  dishes.filter (fun dish =>
    !has_allergy_conflict dish user && !has_dietary_conflict dish user &&
      !region_mismatch dish user)

/-- DishFilter.get_best_dishes_by_meal_type: filter by meal type, then by
constraints; score; stable sort descending by score; take the top n. -/
def get_best_dishes_by_meal_type (dishes : List Dish) (user : UserData)
    (meal_type : String) (target_calories target_protein : Option ℚ)
    (top_n : ℕ) : List Dish :=
  let meal_dishes := dishes.filter
    (fun dish => pyLower dish.meal_type == pyLower meal_type)
  if meal_dishes = [] then []
  else
    let filtered_dishes := filter_dishes_by_constraints meal_dishes user
    if filtered_dishes = [] then []
    else
      let scored_dishes := filtered_dishes.map (fun dish =>
        (dish, calculate_comprehensive_score dish user target_calories target_protein))
      let sorted := scored_dishes.mergeSort (fun a b => decide (b.2 ≤ a.2))
      (sorted.take top_n).map (fun p => p.1)

/-- DishFilter.get_optimal_dish.  random.choice is modelled by an arbitrary
index r into the top slice; the source returns None explicitly on an empty
slice, so the embedding is total and no exception can occur. -/
def get_optimal_dish (r : ℕ) (dishes : List Dish) (user : UserData)
    (meal_type : String) (target_calories target_protein : Option ℚ)
    (randomize_top_n : ℕ) : Option Dish :=
  let top_dishes := get_best_dishes_by_meal_type dishes user meal_type
    target_calories target_protein randomize_top_n
  match top_dishes with
  | [] => none
  | l => l.get? (r % l.length)

/-- Module-level find_best_dish: constraint-filter the whole catalog, return
None if empty, otherwise score with target_protein = 0.3 * daily needs, sort,
and pick from the top n (random.choice modelled by index r). -/
def find_best_dish (r : ℕ) (dishes : List Dish) (user : UserData)
    (top_n : ℕ) : Option Dish :=
  let filtered_dishes := filter_dishes_by_constraints dishes user
  match filtered_dishes with
  | [] => none
  | fd =>
    let daily_protein := calculate_user_protein_needs user
    let target_protein := daily_protein * (3/10)
    let scored_dishes := fd.map (fun dish =>
      (dish, calculate_comprehensive_score dish user none (some target_protein)))
    let sorted := scored_dishes.mergeSort (fun a b => decide (b.2 ≤ a.2))
    let top_dishes := (sorted.take top_n).map (fun p => p.1)
    match top_dishes with
    | [] => none
    | l => l.get? (r % l.length)

/-- Modelled from the spec (claim wording), for comparison only: 0.25 times
the number of distinct dish suitability tags containing, as a
case-insensitive substring, the daytime BUCKET token (the mapped value of
meal_type_mapping, e.g. morning maps to breakfast) of some preferred user
time tag. -/
def claimed_meal_timing_factor (dish : Dish) (user : UserData) : ℚ :=
  ((dish.time_of_day_suitability.filter (fun t =>
      user.preferred_meal_times.any (fun time =>
        match alookup meal_type_mapping (pyLower time) with
        | some bucket => pyContains (pyLower t) (pyLower bucket)
        | none => false))).dedup.length : ℚ) * (1/4)

/-- A concrete dish with no allergy, diet or region data, used as witness
input. -/
def sampleDish : Dish :=
  { name := "Idli", meal_type := "breakfast", calories := 100,
    protein_grams := 5, diet_tags := [], allergy_risks := [], region := "",
    attribute_rankings := [], time_of_day_suitability := ["breakfast"],
    persona_tags := [] }

/-- A concrete user with empty preferences, used as witness input. -/
def sampleUser : UserData :=
  { primary_goal := none, lifestyle_type := none, dietary_strictness := none,
    flavor_preferences := none, prep_skill_level := none,
    affordability_preference := none, known_allergies := [],
    preferred_meal_times := [], persona_tags := [], region := "",
    weight_kg := 70 }

/-- A user whose only preferred time tag is morning, for the meal-timing
counterexample. -/
def morningUser : UserData :=
  { primary_goal := none, lifestyle_type := none, dietary_strictness := none,
    flavor_preferences := none, prep_skill_level := none,
    affordability_preference := none, known_allergies := [],
    preferred_meal_times := ["morning"], persona_tags := [], region := "",
    weight_kg := 70 }

theorem pyRound_abs_le (q : ℚ) : |(pyRound q : ℚ) - q| ≤ 1/2 := by
  have h0 : ((⌊q⌋ : ℤ) : ℚ) ≤ q := Int.floor_le q
  have h1 : q < (⌊q⌋ : ℚ) + 1 := Int.lt_floor_add_one q
  unfold pyRound
  split_ifs with ha hb hc <;> rw [abs_le] <;> constructor <;> push_cast <;> linarith

/-- C5: split_calories raises ValueError exactly when the total is not a
positive number or the cadence is not one of the two recognized strings; the
checks precede allocation, and in the error case the Except carries no
distribution at all (no incomplete slot mapping). -/
theorem split_calories_error_iff (total : ℚ) (freq : String) :
    (∃ e, split_calories total freq = Except.error e) ↔
      total ≤ 0 ∨ (freq ≠ "3 meals" ∧ freq ≠ "3 meals + 2 snacks") := by
  unfold split_calories
  split_ifs with h1 h2 h3 <;> simp_all [not_or]

/-- C2 counterexample: at T = 1000 with cadence "3 meals" the three slots are
280, 320, 280, whose sum 880 differs from T by 120 > 20, so the claimed
"within 20 kcal of T" bound is false as stated. -/
theorem split_three_meals_sum_far_from_total :
    split_calories 1000 "3 meals" =
      Except.ok { breakfast := 280, lunch := 320, dinner := 280,
                  snack_1 := none, snack_2 := none }
    ∧ ¬ (|(280 + 320 + 280 : ℚ) - 1000| ≤ 20) := by
  constructor
  · rw [split_calories]
    norm_num [pyRound, (by decide : ("3 meals" : String) ≠ "3 meals + 2 snacks")]
  · norm_num

/-- C2 amended: for every total T > 0 with cadence "3 meals", each of the
three slot values is a multiple of 10 and their sum is within 20 kcal of
0.875·T (the three percentages sum to 87.5 percent, and each of the three
roundings moves its slot by at most 5 kcal). -/
theorem split_three_meals_slots (T : ℚ) (hT : 0 < T) (c : CalorieDistribution)
    (h : split_calories T "3 meals" = Except.ok c) :
    (10 ∣ c.breakfast) ∧ (10 ∣ c.lunch) ∧ (10 ∣ c.dinner) ∧
      |((c.breakfast : ℚ) + (c.lunch : ℚ) + (c.dinner : ℚ)) - (7/8) * T| ≤ 20 := by
  unfold split_calories at h
  rw [if_neg (not_le.2 hT), if_neg (by simp), if_neg (by decide)] at h
  have hc : c = { breakfast := pyRound (T * (11/40) / 10) * 10,
                  lunch := pyRound (T * (13/40) / 10) * 10,
                  dinner := pyRound (T * (11/40) / 10) * 10,
                  snack_1 := none, snack_2 := none } := by
    cases h; rfl
  subst hc
  refine ⟨dvd_mul_left 10 _, dvd_mul_left 10 _, dvd_mul_left 10 _, ?_⟩
  have hb := pyRound_abs_le (T * (11/40) / 10)
  have hl := pyRound_abs_le (T * (13/40) / 10)
  rw [abs_le] at hb hl ⊢
  obtain ⟨hb1, hb2⟩ := hb
  obtain ⟨hl1, hl2⟩ := hl
  constructor <;> push_cast <;> linarith

/-- Concrete evaluation of split_calories at 1000 with cadence "3 meals". -/
theorem split_calories_eval_1000 :
    split_calories 1000 "3 meals" =
      Except.ok { breakfast := 280, lunch := 320, dinner := 280,
                  snack_1 := none, snack_2 := none } := by
  rw [split_calories]
  norm_num [pyRound, (by decide : ("3 meals" : String) ≠ "3 meals + 2 snacks")]

/-- Concrete evaluation of split_calories at 1978 with the snack cadence. -/
theorem split_calories_eval_1978 :
    split_calories 1978 "3 meals + 2 snacks" =
      Except.ok { breakfast := 540, lunch := 640, dinner := 540,
                  snack_1 := some 130, snack_2 := some 130 } := by
  rw [split_calories]
  norm_num [pyRound]

/-- C2 amended, witness at T = 1000: slots 280/320/280 are multiples of 10 and
their sum 880 is within 20 of 0.875 * 1000 = 875. -/
theorem split_three_meals_slots_witness :
    (0 : ℚ) < 1000 ∧
      ((10 ∣ (280 : ℤ)) ∧ (10 ∣ (320 : ℤ)) ∧ (10 ∣ (280 : ℤ)) ∧
        |((280 : ℚ) + (320 : ℚ) + (280 : ℚ)) - (7/8) * 1000| ≤ 20) :=
  ⟨by decide,
   split_three_meals_slots 1000 (by decide)
     { breakfast := 280, lunch := 320, dinner := 280,
       snack_1 := none, snack_2 := none } split_calories_eval_1000⟩

/-- C4: for every total T > 0 with cadence "3 meals + 2 snacks", the two snack
slots carry the same value and the sum of all five slots is within 20 kcal of
T (in fact within 10: the residual is halved, rounded to the nearest 10 and
doubled, moving the total by at most 10). -/
theorem split_snacks_symmetric (T : ℚ) (hT : 0 < T) (c : CalorieDistribution)
    (h : split_calories T "3 meals + 2 snacks" = Except.ok c) :
    ∃ s : ℤ, c.snack_1 = some s ∧ c.snack_2 = some s ∧
      |((c.breakfast : ℚ) + (c.lunch : ℚ) + (c.dinner : ℚ) + (s : ℚ) + (s : ℚ)) - T| ≤ 20 := by
  unfold split_calories at h
  rw [if_neg (not_le.2 hT), if_neg (by simp), if_pos rfl] at h
  have hc : c = { breakfast := pyRound (T * (11/40) / 10) * 10,
                  lunch := pyRound (T * (13/40) / 10) * 10,
                  dinner := pyRound (T * (11/40) / 10) * 10,
                  snack_1 := some (pyRound
                    ((T - ((pyRound (T * (11/40) / 10) * 10 +
                            pyRound (T * (13/40) / 10) * 10 +
                            pyRound (T * (11/40) / 10) * 10 : ℤ) : ℚ)) / 2 / 10) * 10),
                  snack_2 := some (pyRound
                    ((T - ((pyRound (T * (11/40) / 10) * 10 +
                            pyRound (T * (13/40) / 10) * 10 +
                            pyRound (T * (11/40) / 10) * 10 : ℤ) : ℚ)) / 2 / 10) * 10) } := by
    cases h; rfl
  subst hc
  refine ⟨_, rfl, rfl, ?_⟩
  have hs := pyRound_abs_le
    ((T - ((pyRound (T * (11/40) / 10) * 10 +
            pyRound (T * (13/40) / 10) * 10 +
            pyRound (T * (11/40) / 10) * 10 : ℤ) : ℚ)) / 2 / 10)
  rw [abs_le] at hs ⊢
  obtain ⟨hs1, hs2⟩ := hs
  constructor <;> push_cast at hs1 hs2 ⊢ <;> linarith

/-- C4 witness at T = 1978: slots 540/640/540 and snacks 130/130, sum 1980,
within 20 of 1978. -/
theorem split_snacks_symmetric_witness :
    (0 : ℚ) < 1978 ∧
      (∃ s : ℤ, some (130 : ℤ) = some s ∧ some (130 : ℤ) = some s ∧
        |((540 : ℚ) + (640 : ℚ) + (540 : ℚ) + (s : ℚ) + (s : ℚ)) - 1978| ≤ 20) :=
  ⟨by decide,
   split_snacks_symmetric 1978 (by decide)
     { breakfast := 540, lunch := 640, dinner := 540,
       snack_1 := some 130, snack_2 := some 130 } split_calories_eval_1978⟩

/-- C10: split_calories does not guarantee non-negative slots: at the positive
integer total 19 with cadence "3 meals + 2 snacks" each meal rounds up to 10,
the residual is 19 - 30 = -11, and both snacks are assigned -10. -/
theorem split_calories_19_negative_snacks :
    split_calories 19 "3 meals + 2 snacks" =
      Except.ok { breakfast := 10, lunch := 10, dinner := 10,
                  snack_1 := some (-10), snack_2 := some (-10) }
    ∧ (-10 : ℤ) < 0 := by
  constructor
  · rw [split_calories]
    norm_num [pyRound]
  · norm_num

/-- C3 counterexample: for the stated profile the code computes BMR
10*70 + 6.25*175 - 5*30 + 5 = 1648.75 (the claim miscomputes it as 1568.75),
so the caloric target is round(1648.75 * 1.2) = round(1978.5) = 1978, not
1883; moreover split_calories(1883, "3 meals + 2 snacks") yields snacks of
120, not 115 (every snack value is a multiple of 10). -/
theorem caloric_target_70_175_30_not_1883 :
    computed_caloric_target 70 175 30 "Male" "sedentary" "Maintenance" = 1978
    ∧ (1978 : ℤ) ≠ 1883
    ∧ split_calories 1883 "3 meals + 2 snacks" =
        Except.ok { breakfast := 520, lunch := 610, dinner := 520,
                    snack_1 := some 120, snack_2 := some 120 } := by
  refine ⟨?_, by norm_num, ?_⟩
  · rw [computed_caloric_target]
    simp [calculate_bmr, get_activity_factor, goal_adjustment, alookup,
      (by decide : pyLower "sedentary" = "sedentary")]
    norm_num [pyRound, pyTrunc]
  · rw [split_calories]
    norm_num [pyRound]

/-- C3 amended: for the user with weight 70 kg, height 175 cm, age 30, gender
Male, sedentary lifestyle and Maintenance goal, the computed caloric target is
round((10*70 + 6.25*175 - 5*30 + 5) * 1.2) = round(1978.5) = 1978 kcal (round
half to even), and split_calories(1978, "3 meals + 2 snacks") returns
breakfast=540, lunch=640, dinner=540, snack_1=snack_2=130. -/
theorem caloric_target_70_175_30_end_to_end :
    computed_caloric_target 70 175 30 "Male" "sedentary" "Maintenance" = 1978
    ∧ split_calories 1978 "3 meals + 2 snacks" =
        Except.ok { breakfast := 540, lunch := 640, dinner := 540,
                    snack_1 := some 130, snack_2 := some 130 } := by
  refine ⟨?_, split_calories_eval_1978⟩
  rw [computed_caloric_target]
  simp [calculate_bmr, get_activity_factor, goal_adjustment, alookup,
    (by decide : pyLower "sedentary" = "sedentary")]
  norm_num [pyRound, pyTrunc]

/-- C1: every dish surviving filter_dishes_by_constraints has an empty
case-insensitive intersection between its allergy_risks tags and the known_allergies set of the
user (entries stripped and lowercased); holds for every
catalog and user, including empty ones. -/
theorem filter_dishes_no_allergy_overlap (dishes : List Dish) (user : UserData)
    (d : Dish) (hd : d ∈ filter_dishes_by_constraints dishes user) :
    ∀ a ∈ user_allergy_set user, a ∉ dish_allergen_set d := by
  intro a ha hmem
  rw [filter_dishes_by_constraints, List.mem_filter] at hd
  obtain ⟨-, hcond⟩ := hd
  simp only [Bool.and_eq_true] at hcond
  have h2 : has_allergy_conflict d user = false := by
    have := hcond.1.1
    rwa [Bool.not_eq_true'] at this
  rw [has_allergy_conflict, Bool.not_eq_false'] at h2
  have h3 : allergy_conflicts d user = [] := List.isEmpty_iff.mp h2
  have h4 : a ∈ allergy_conflicts d user := by
    rw [allergy_conflicts, List.mem_filter]
    exact ⟨ha, List.elem_iff.mpr hmem⟩
  rw [h3] at h4
  cases h4

/-- C1 witness: a dish with no allergens passes the filter for a user with no
allergies, and the theorem applies. -/
theorem filter_dishes_no_allergy_overlap_witness :
    sampleDish ∈ filter_dishes_by_constraints [sampleDish] sampleUser
    ∧ ∀ a ∈ user_allergy_set sampleUser, a ∉ dish_allergen_set sampleDish :=
  ⟨by decide, filter_dishes_no_allergy_overlap [sampleDish] sampleUser sampleDish (by decide)⟩

/-- C6: with a positive protein target the comprehensive score carries a
protein factor of 3 / 2 / 1 / -1 by the quotient bands [0.8,1.2], [0.6,1.4],
[0.4,1.6] (tightest first, first match wins), weighted by 1.5; a target of 0
or an absent target contributes exactly 0. -/
theorem comprehensive_score_protein_factor (d : Dish) (u : UserData)
    (tc : Option ℚ) (p : ℚ) (hp : 0 < p) :
    (calculate_comprehensive_score d u tc (some p)
      = calculate_comprehensive_score d u tc none
        + (if 4/5 ≤ d.protein_grams / p ∧ d.protein_grams / p ≤ 6/5 then (3 : ℚ)
           else if 3/5 ≤ d.protein_grams / p ∧ d.protein_grams / p ≤ 7/5 then 2
           else if 2/5 ≤ d.protein_grams / p ∧ d.protein_grams / p ≤ 8/5 then 1
           else -1) * (3/2))
    ∧ calculate_comprehensive_score d u tc (some 0)
        = calculate_comprehensive_score d u tc none := by
  have hne : p ≠ 0 := ne_of_gt hp
  constructor
  · simp only [calculate_comprehensive_score, protein_contribution,
      calculate_protein_score, if_neg hne]
    ring
  · simp [calculate_comprehensive_score, protein_contribution]

/-- C6 witness at target 1 on the sample dish and user. -/
theorem comprehensive_score_protein_factor_witness :
    (0 : ℚ) < 1 ∧
      ((calculate_comprehensive_score sampleDish sampleUser none (some 1)
        = calculate_comprehensive_score sampleDish sampleUser none none
          + (if 4/5 ≤ sampleDish.protein_grams / 1 ∧ sampleDish.protein_grams / 1 ≤ 6/5 then (3 : ℚ)
             else if 3/5 ≤ sampleDish.protein_grams / 1 ∧ sampleDish.protein_grams / 1 ≤ 7/5 then 2
             else if 2/5 ≤ sampleDish.protein_grams / 1 ∧ sampleDish.protein_grams / 1 ≤ 8/5 then 1
             else -1) * (3/2))
      ∧ calculate_comprehensive_score sampleDish sampleUser none (some 0)
          = calculate_comprehensive_score sampleDish sampleUser none none) :=
  ⟨by norm_num, comprehensive_score_protein_factor sampleDish sampleUser none 1 (by norm_num)⟩

/-- C7: the allergy factor of the comprehensive score equals -10 times the
size of the case-insensitive user-dish allergen intersection, hence it is
never positive. -/
theorem comprehensive_score_allergy_factor (d : Dish) (u : UserData) :
    allergy_contribution d u = -10 * ((allergy_conflicts d u).length : ℚ)
    ∧ allergy_contribution d u ≤ 0 := by
  have hmain : allergy_contribution d u
      = -10 * ((allergy_conflicts d u).length : ℚ) := by
    rw [allergy_contribution, calculate_allergy_risk,
      (by norm_num : |(-10 : ℚ)| = 10)]
    split_ifs with h
    · simp [h]
    · ring
  refine ⟨hmain, ?_⟩
  rw [hmain]
  have hnn : (0 : ℚ) ≤ ((allergy_conflicts d u).length : ℚ) := Nat.cast_nonneg _
  linarith

/-- Evaluation helper: the meal-timing contribution once the collected-tag
count is known. -/
theorem timing_contribution_eval (d : Dish) (u : UserData) (n : ℕ)
    (hne : ¬(u.preferred_meal_times = [] ∨ d.time_of_day_suitability = []))
    (hn : (u.preferred_meal_times.flatMap (fun time =>
        if (meal_type_mapping.map (fun p => p.1)).contains (pyLower time) then
          d.time_of_day_suitability.filter
            (fun t => pyContains (pyLower t) (pyLower time))
        else [])).dedup.length = n) :
    timing_contribution d u = (n : ℚ) * (1/4) := by
  rw [timing_contribution, calculate_meal_timing_score, if_neg hne, hn]
  ring

/-- C8 counterexample: for a dish suitable at "breakfast" and a user who
prefers "morning", the code scores 0 (it matches the raw user tag
"morning" as substring, not the mapped bucket "breakfast"), while the claim
predicts 0.25. -/
theorem meal_timing_matches_user_tag_not_bucket :
    timing_contribution sampleDish morningUser = 0
    ∧ claimed_meal_timing_factor sampleDish morningUser = 1/4
    ∧ timing_contribution sampleDish morningUser
        ≠ claimed_meal_timing_factor sampleDish morningUser := by
  have h1 : timing_contribution sampleDish morningUser = 0 := by
    have := timing_contribution_eval sampleDish morningUser 0 (by decide) (by decide)
    rw [this]
    norm_num
  have h2 : claimed_meal_timing_factor sampleDish morningUser = 1/4 := by
    rw [claimed_meal_timing_factor,
      (by decide : (sampleDish.time_of_day_suitability.filter (fun t =>
        morningUser.preferred_meal_times.any (fun time =>
          match alookup meal_type_mapping (pyLower time) with
          | some bucket => pyContains (pyLower t) (pyLower bucket)
          | none => false))).dedup.length = 1)]
    norm_num
  refine ⟨h1, h2, ?_⟩
  rw [h1, h2]
  norm_num

/-- C8 amended: the meal-timing factor equals 0.25 times the number of
distinct dish suitability tags that contain, as a case-insensitive
substring, SOME USER preferred time tag whose lowercase is a key of the
known mapping (morning / afternoon / evening / night / snacks); it is 0
whenever either tag list is empty. -/
theorem timing_contribution_counts_user_tag_matches (d : Dish) (u : UserData) :
    timing_contribution d u =
      ((d.time_of_day_suitability.filter (fun t =>
          u.preferred_meal_times.any (fun time =>
            (meal_type_mapping.map (fun p => p.1)).contains (pyLower time) &&
              pyContains (pyLower t) (pyLower time)))).dedup.length : ℚ) * (1/4) := by
  rw [timing_contribution, calculate_meal_timing_score]
  by_cases hcase : u.preferred_meal_times = [] ∨ d.time_of_day_suitability = []
  · rw [if_pos hcase]
    rcases hcase with h | h <;> simp [h]
  · rw [if_neg hcase]
    have hset : ∀ x, (x ∈ u.preferred_meal_times.flatMap (fun time =>
        if (meal_type_mapping.map (fun p => p.1)).contains (pyLower time) then
          d.time_of_day_suitability.filter
            (fun t => pyContains (pyLower t) (pyLower time))
        else [])) ↔ (x ∈ d.time_of_day_suitability.filter (fun t =>
          u.preferred_meal_times.any (fun time =>
            (meal_type_mapping.map (fun p => p.1)).contains (pyLower time) &&
              pyContains (pyLower t) (pyLower time)))) := by
      intro x
      rw [List.mem_flatMap]
      constructor
      · rintro ⟨time, htime, hx⟩
        by_cases hk : ((meal_type_mapping.map (fun p => p.1)).contains (pyLower time)) = true
        · rw [if_pos hk, List.mem_filter] at hx
          rw [List.mem_filter]
          refine ⟨hx.1, ?_⟩
          rw [List.any_eq_true]
          exact ⟨time, htime, by rw [Bool.and_eq_true]; exact ⟨hk, hx.2⟩⟩
        · rw [if_neg hk] at hx
          cases hx
      · intro hx
        rw [List.mem_filter, List.any_eq_true] at hx
        obtain ⟨hxd, time, htime, hcond⟩ := hx
        rw [Bool.and_eq_true] at hcond
        exact ⟨time, htime, by rw [if_pos hcond.1, List.mem_filter]; exact ⟨hxd, hcond.2⟩⟩
    have hlen : (u.preferred_meal_times.flatMap (fun time =>
        if (meal_type_mapping.map (fun p => p.1)).contains (pyLower time) then
          d.time_of_day_suitability.filter
            (fun t => pyContains (pyLower t) (pyLower time))
        else [])).dedup.length
        = (d.time_of_day_suitability.filter (fun t =>
          u.preferred_meal_times.any (fun time =>
            (meal_type_mapping.map (fun p => p.1)).contains (pyLower time) &&
              pyContains (pyLower t) (pyLower time)))).dedup.length := by
      rw [← List.card_toFinset, ← List.card_toFinset]
      congr 1
      ext x
      rw [List.mem_toFinset, List.mem_toFinset]
      exact hset x
    rw [hlen]
    ring

/-- Helper for C9: get_best_dishes_by_meal_type returns the empty list as
soon as constraint filtering leaves no candidate (covering an empty catalog,
no dish of the meal type, and all dishes filtered out). -/
theorem get_best_dishes_of_filtered_empty (dishes : List Dish) (u : UserData)
    (meal_type : String) (tc tp : Option ℚ) (n : ℕ)
    (h : filter_dishes_by_constraints
      (dishes.filter (fun dish => pyLower dish.meal_type == pyLower meal_type)) u = []) :
    get_best_dishes_by_meal_type dishes u meal_type tc tp n = [] := by
  simp only [get_best_dishes_by_meal_type]
  by_cases hm : dishes.filter (fun dish => pyLower dish.meal_type == pyLower meal_type) = []
  · rw [if_pos hm]
  · rw [if_neg hm, if_pos h]

/-- C9: when the candidate set for a slot is empty (empty catalog, no dish of
the meal type, or everything removed by constraint filtering),
get_optimal_dish and find_best_dish return none; both embeddings are total
functions, so no exception is possible. -/
theorem empty_candidates_give_no_dish (r : ℕ) (dishes : List Dish)
    (u : UserData) (meal_type : String) (tc tp : Option ℚ) (n m : ℕ) :
    (filter_dishes_by_constraints
        (dishes.filter (fun dish => pyLower dish.meal_type == pyLower meal_type)) u = [] →
      get_optimal_dish r dishes u meal_type tc tp n = none)
    ∧ (filter_dishes_by_constraints dishes u = [] →
      find_best_dish r dishes u m = none) := by
  constructor
  · intro h
    have hb := get_best_dishes_of_filtered_empty dishes u meal_type tc tp n h
    simp only [get_optimal_dish, hb]
  · intro h
    simp only [find_best_dish, h]

/-- C9 witness: on the empty catalog both selectors return none. -/
theorem empty_candidates_give_no_dish_witness :
    get_optimal_dish 0 [] sampleUser "breakfast" none none 3 = none
    ∧ find_best_dish 0 [] sampleUser 5 = none :=
  ⟨(empty_candidates_give_no_dish 0 [] sampleUser "breakfast" none none 3 5).1 (by decide),
   (empty_candidates_give_no_dish 0 [] sampleUser "breakfast" none none 3 5).2 (by decide)⟩
